import Mathlib

/-!
Verification development for the dbsfw data layer (card catalog backing store).

The Lean definitions below shallowly embed the operations found in
src/data/Database.cpp, src/data/Export.cpp, src/data/Import.cpp and
src/data/dbextension.cpp.  JSON documents are modelled structurally (the
engine's json_object / json_extract pipeline is the black-box relational
engine); SQLite values exchanged with the base64 scalar functions are
modelled through their blob-or-null / text-or-null views.
-/

/-- Base64 alphabet used by CryptBinaryToStringW with CRYPT_STRING_BASE64
(standard RFC 4648 alphabet), as a lookup table. -/
def b64Alphabet : List Char :=
  ['A','B','C','D','E','F','G','H','I','J','K','L','M','N','O','P',
   'Q','R','S','T','U','V','W','X','Y','Z',
   'a','b','c','d','e','f','g','h','i','j','k','l','m','n','o','p',
   'q','r','s','t','u','v','w','x','y','z',
   '0','1','2','3','4','5','6','7','8','9','+','/']

/-- Character for a six-bit group (padding character for out-of-range input). -/
def sextetChar (n : Nat) : Char := b64Alphabet.getD n '='

/-- Six-bit value of a base64 character, none when the character is not in
the alphabet (models the decode-side table lookup of CryptStringToBinaryW). -/
def charVal (c : Char) : Option Nat := b64Alphabet.findIdx? (fun a => a = c)

/-- Base64 encoding of a byte sequence, three bytes at a time with `=`
padding, as produced by CryptBinaryToStringW(CRYPT_STRING_BASE64|NOCRLF). -/
def encodeB64 : List Nat → List Char
  | [] => []
  | [a] => [sextetChar (a / 4), sextetChar (a % 4 * 16), '=', '=']
  | [a, b] => [sextetChar (a / 4), sextetChar (a % 4 * 16 + b / 16),
      sextetChar (b % 16 * 4), '=']
  | a :: b :: c :: rest =>
      sextetChar (a / 4) :: sextetChar (a % 4 * 16 + b / 16) ::
      sextetChar (b % 16 * 4 + c / 64) :: sextetChar (c % 64) ::
      encodeB64 rest

/-- Base64 decoding back to bytes, four characters at a time, accepting `=`
padding only at the end (models CryptStringToBinaryW on well-formed input;
malformed input yields none, which the scalar function turns into an
engine error). -/
def decodeB64 : List Char → Option (List Nat)
  | [] => some []
  | c1 :: c2 :: c3 :: c4 :: rest =>
    match charVal c1, charVal c2 with
    | some s1, some s2 =>
      if c3 = '=' then
        if c4 = '=' ∧ rest = [] then some [s1 * 4 + s2 / 16] else none
      else
        match charVal c3 with
        | some s3 =>
          if c4 = '=' then
            if rest = [] then some [s1 * 4 + s2 / 16, s2 % 16 * 16 + s3 / 4]
            else none
          else
            match charVal c4, decodeB64 rest with
            | some s4, some tail =>
                some ((s1 * 4 + s2 / 16) :: (s2 % 16 * 16 + s3 / 4) ::
                  (s3 % 4 * 64 + s4) :: tail)
            | _, _ => none
        | none => none
    | _, _ => none
  | _ => none

theorem charVal_sextetChar : ∀ n < 64, charVal (sextetChar n) = some n := by
  decide

theorem sextetChar_ne_pad : ∀ n < 64, sextetChar n ≠ '=' := by
  decide

theorem decodeB64_encodeB64 (bytes : List Nat) (h : ∀ x ∈ bytes, x < 256) :
    decodeB64 (encodeB64 bytes) = some bytes := by
  induction bytes using encodeB64.induct with
  | case1 => rfl
  | case2 a =>
    have ha : a < 256 := h a (by simp)
    have h1 : charVal (sextetChar (a / 4)) = some (a / 4) :=
      charVal_sextetChar _ (by omega)
    have h2 : charVal (sextetChar (a % 4 * 16)) = some (a % 4 * 16) :=
      charVal_sextetChar _ (by omega)
    simp only [encodeB64, decodeB64, h1, h2, if_pos rfl, and_self]
    simp
    omega
  | case3 a b =>
    have ha : a < 256 := h a (by simp)
    have hb : b < 256 := h b (by simp)
    have h1 : charVal (sextetChar (a / 4)) = some (a / 4) :=
      charVal_sextetChar _ (by omega)
    have h2 : charVal (sextetChar (a % 4 * 16 + b / 16)) =
        some (a % 4 * 16 + b / 16) := charVal_sextetChar _ (by omega)
    have h3 : charVal (sextetChar (b % 16 * 4)) = some (b % 16 * 4) :=
      charVal_sextetChar _ (by omega)
    have hne : sextetChar (b % 16 * 4) ≠ '=' := sextetChar_ne_pad _ (by omega)
    simp only [encodeB64, decodeB64, h1, h2, h3, if_neg hne, if_pos rfl]
    simp
    omega
  | case4 a b c rest ih =>
    have ha : a < 256 := h a (by simp)
    have hb : b < 256 := h b (by simp)
    have hc : c < 256 := h c (by simp)
    have h1 : charVal (sextetChar (a / 4)) = some (a / 4) :=
      charVal_sextetChar _ (by omega)
    have h2 : charVal (sextetChar (a % 4 * 16 + b / 16)) =
        some (a % 4 * 16 + b / 16) := charVal_sextetChar _ (by omega)
    have h3 : charVal (sextetChar (b % 16 * 4 + c / 64)) =
        some (b % 16 * 4 + c / 64) := charVal_sextetChar _ (by omega)
    have h4 : charVal (sextetChar (c % 64)) = some (c % 64) :=
      charVal_sextetChar _ (by omega)
    have hne3 : sextetChar (b % 16 * 4 + c / 64) ≠ '=' :=
      sextetChar_ne_pad _ (by omega)
    have hne4 : sextetChar (c % 64) ≠ '=' := sextetChar_ne_pad _ (by omega)
    have htail : decodeB64 (encodeB64 rest) = some rest :=
      ih (fun x hx => h x (by simp [hx]))
    simp only [encodeB64, decodeB64, h1, h2, h3, h4, if_neg hne3,
      if_neg hne4, htail]
    simp
    omega

/-- Scalar function base64encode from dbextension.cpp, on the blob-or-null
view of its SQLite argument: a null argument has zero value-bytes and a
zero-length blob likewise returns SQL NULL; otherwise the blob is encoded
to base64 text. -/
def base64encode (v : Option (List Nat)) : Option (List Char) :=
  match v with
  | none => none
  | some b => if b.length = 0 then none else some (encodeB64 b)

/-- Scalar function base64decode from dbextension.cpp, on the text-or-null
view of its SQLite argument: a null argument returns SQL NULL; text that
fails to decode raises an engine error; otherwise the decoded blob. -/
def base64decode (v : Option (List Char)) : Except String (Option (List Nat)) :=
  match v with
  | none => .ok none
  | some s =>
    match decodeB64 s with
    | some bytes => .ok (some bytes)
    | none => .error "failed to decode binary data from base-64"

/-- Row of the card table (schema version 1 DDL in Database.cpp):
cardid(pk) | type | color | rarity. -/
structure CardRow where
  cardid : String
  type : String
  color : String
  rarity : String
deriving DecidableEq

/-- Row of the carddetail table:
cardid(pk|fk) | side(pk) | language(pk) | name | cost | specifiedcost |
power | combopower | traits | effect.  Nullable columns are Option. -/
structure DetailRow where
  cardid : String
  side : Option String
  language : String
  name : String
  cost : Option Int
  specifiedcost : Option String
  power : Option Int
  combopower : Option Int
  traits : Option String
  effect : Option String
deriving DecidableEq

/-- Row of the cardfaq table:
cardid(pk|fk) | faqid(pk) | language(pk) | question | answer. -/
structure FaqRow where
  cardid : String
  faqid : String
  language : String
  question : String
  answer : Option String
deriving DecidableEq

/-- Row of the cardfaqrelated table:
cardid(pk|fk) | faqid(pk|fk, declared nullable) | language(pk|fk) |
relatedcardid(pk). -/
structure FaqRelatedRow where
  cardid : String
  faqid : Option String
  language : String
  relatedcardid : String
deriving DecidableEq

/-- Row of the cardimage table:
cardid(pk|fk) | side(pk) | language(pk) | format | image(blob not null).
The blob is a byte list. -/
structure ImageRow where
  cardid : String
  side : Option String
  language : String
  format : String
  image : List Nat
deriving DecidableEq

/-- Relational state of the five tables. -/
structure DatabaseState where
  card : List CardRow
  carddetail : List DetailRow
  cardfaq : List FaqRow
  cardfaqrelated : List FaqRelatedRow
  cardimage : List ImageRow
deriving DecidableEq

/-- Code-point lexicographic comparison of character lists: the BINARY
collation comparison SQLite applies to text values in the export query's
ORDER BY clauses. -/
def charsLt : List Char → List Char → Prop
  | [], [] => False
  | [], _ :: _ => True
  | _ :: _, [] => False
  | a :: as, b :: bs => a.toNat < b.toNat ∨ (a.toNat = b.toNat ∧ charsLt as bs)

/-- Decision procedure for charsLt. -/
def charsLtDec : (a b : List Char) → Decidable (charsLt a b)
  | [], [] => isFalse (fun h => h)
  | [], _ :: _ => isTrue trivial
  | _ :: _, [] => isFalse (fun h => h)
  | _ :: as, _ :: bs =>
    haveI := charsLtDec as bs
    inferInstanceAs (Decidable (_ ∨ _))

instance : DecidableRel charsLt := charsLtDec

theorem charsLt_trans : ∀ (a b c : List Char),
    charsLt a b → charsLt b c → charsLt a c
  | [], [], _ => fun h1 _ => absurd h1 (fun h => h)
  | [], _ :: _, [] => fun _ h2 => absurd h2 (fun h => h)
  | [], _ :: _, _ :: _ => fun _ _ => trivial
  | _ :: _, [], _ => fun h1 _ => absurd h1 (fun h => h)
  | _ :: _, _ :: _, [] => fun _ h2 => absurd h2 (fun h => h)
  | a :: as, b :: bs, c :: cs => fun h1 h2 => by
      rcases h1 with h1 | ⟨e1, r1⟩
      · rcases h2 with h2 | ⟨e2, r2⟩
        · exact Or.inl (Nat.lt_trans h1 h2)
        · exact Or.inl (e2 ▸ h1)
      · rcases h2 with h2 | ⟨e2, r2⟩
        · exact Or.inl (e1 ▸ h2)
        · exact Or.inr ⟨e1.trans e2, charsLt_trans as bs cs r1 r2⟩

theorem charsLt_tri : ∀ (a b : List Char), charsLt a b ∨ a = b ∨ charsLt b a
  | [], [] => Or.inr (Or.inl rfl)
  | [], _ :: _ => Or.inl trivial
  | _ :: _, [] => Or.inr (Or.inr trivial)
  | a :: as, b :: bs => by
      rcases Nat.lt_trichotomy a.toNat b.toNat with h | h | h
      · exact Or.inl (Or.inl h)
      · rcases charsLt_tri as bs with h2 | h2 | h2
        · exact Or.inl (Or.inr ⟨h, h2⟩)
        · have he : a = b := Char.ext (UInt32.ext h)
          exact Or.inr (Or.inl (by rw [he, h2]))
        · exact Or.inr (Or.inr (Or.inr ⟨h.symm, h2⟩))
      · exact Or.inr (Or.inr (Or.inl h))

/-- BINARY-collation strict comparison of two text values. -/
def strLt (a b : String) : Prop := charsLt a.data b.data

instance : DecidableRel strLt := fun a b => charsLtDec a.data b.data

/-- BINARY-collation non-strict comparison of two text values. -/
def strLe (a b : String) : Prop := strLt a b ∨ a = b

instance : DecidableRel strLe := fun _ _ => inferInstanceAs (Decidable (_ ∨ _))

theorem strLt_trans {a b c : String} (h1 : strLt a b) (h2 : strLt b c) :
    strLt a c := charsLt_trans _ _ _ h1 h2

theorem strLt_tri (a b : String) : strLt a b ∨ a = b ∨ strLt b a := by
  rcases charsLt_tri a.data b.data with h | h | h
  · exact Or.inl h
  · refine Or.inr (Or.inl ?_)
    cases a
    cases b
    exact congrArg String.mk h
  · exact Or.inr (Or.inr h)

theorem strLe_trans {a b c : String} (h1 : strLe a b) (h2 : strLe b c) :
    strLe a c := by
  rcases h1 with h1 | h1
  · rcases h2 with h2 | h2
    · exact Or.inl (strLt_trans h1 h2)
    · exact Or.inl (h2 ▸ h1)
  · rcases h2 with h2 | h2
    · exact Or.inl (h1 ▸ h2)
    · exact Or.inr (h1.trans h2)

theorem strLe_total (a b : String) : strLe a b ∨ strLe b a := by
  rcases strLt_tri a b with h | h | h
  · exact Or.inl (Or.inl h)
  · exact Or.inl (Or.inr h)
  · exact Or.inr (Or.inl h)

/-- SQLite ascending comparison of a nullable text column under the default
BINARY collation: NULL sorts before any text value. -/
def optStrLe : Option String → Option String → Prop
  | none, _ => True
  | some _, none => False
  | some x, some y => strLe x y

instance : DecidableRel optStrLe
  | none, _ => isTrue trivial
  | some _, none => isFalse id
  | some x, some y => inferInstanceAs (Decidable (strLe x y))

theorem optStrLe_trans {a b c : Option String} (h1 : optStrLe a b)
    (h2 : optStrLe b c) : optStrLe a c := by
  cases a with
  | none => trivial
  | some x =>
    cases b with
    | none => exact absurd h1 id
    | some y =>
      cases c with
      | none => exact absurd h2 id
      | some z =>
        simp only [optStrLe] at h1 h2 ⊢
        exact strLe_trans h1 h2

theorem optStrLe_total (a b : Option String) : optStrLe a b ∨ optStrLe b a := by
  cases a with
  | none => exact Or.inl trivial
  | some x =>
    cases b with
    | none => exact Or.inr trivial
    | some y =>
      simp only [optStrLe]
      exact strLe_total x y

/-- Lexicographic ordering with a primary String key ascending and an
arbitrary secondary comparison, the shape of the ORDER BY clauses in the
export query of Export.cpp. -/
def lexLe {α} (key1 : α → String) (le2 : α → α → Prop) (a b : α) : Prop :=
  strLt (key1 a) (key1 b) ∨ (key1 a = key1 b ∧ le2 a b)

instance {α} (key1 : α → String) (le2 : α → α → Prop) [DecidableRel le2] :
    DecidableRel (lexLe key1 le2) := fun _ _ =>
  inferInstanceAs (Decidable (_ ∨ _))

theorem lexLe_trans {α} {key1 : α → String} {le2 : α → α → Prop}
    (htr : ∀ x y z, le2 x y → le2 y z → le2 x z) {a b c : α}
    (h1 : lexLe key1 le2 a b) (h2 : lexLe key1 le2 b c) :
    lexLe key1 le2 a c := by
  rcases h1 with h1 | ⟨e1, l1⟩
  · rcases h2 with h2 | ⟨e2, _⟩
    · exact Or.inl (strLt_trans h1 h2)
    · exact Or.inl (e2 ▸ h1)
  · rcases h2 with h2 | ⟨e2, l2⟩
    · exact Or.inl (e1 ▸ h2)
    · exact Or.inr ⟨e1.trans e2, htr _ _ _ l1 l2⟩

theorem lexLe_total {α} {key1 : α → String} {le2 : α → α → Prop}
    (hto : ∀ x y, le2 x y ∨ le2 y x) (a b : α) :
    lexLe key1 le2 a b ∨ lexLe key1 le2 b a := by
  rcases strLt_tri (key1 a) (key1 b) with h | h | h
  · exact Or.inl (Or.inl h)
  · rcases hto a b with hl | hl
    · exact Or.inl (Or.inr ⟨h, hl⟩)
    · exact Or.inr (Or.inr ⟨h.symm, hl⟩)
  · exact Or.inr (Or.inl h)

/-- Ordering of exported Detail rows: `order by detail.language asc,
detail.side desc` (descending side, NULL side last). -/
def detailOrd : DetailRow → DetailRow → Prop :=
  lexLe (·.language) (fun a b => optStrLe b.side a.side)

/-- Ordering of exported FAQ rows: `order by faq.language asc,
faq.faqid asc`. -/
def faqOrd : FaqRow → FaqRow → Prop :=
  lexLe (·.language) (fun a b => strLe a.faqid b.faqid)

/-- Ordering of exported Image rows: `order by image.language asc,
image.side desc`. -/
def imageOrd : ImageRow → ImageRow → Prop :=
  lexLe (·.language) (fun a b => optStrLe b.side a.side)

instance : DecidableRel detailOrd := inferInstanceAs (DecidableRel (lexLe _ _))

instance : DecidableRel faqOrd := inferInstanceAs (DecidableRel (lexLe _ _))

instance : DecidableRel imageOrd := inferInstanceAs (DecidableRel (lexLe _ _))

instance : IsTrans DetailRow detailOrd where
  trans a b c h1 h2 := by
    unfold detailOrd at h1 h2 ⊢
    refine lexLe_trans ?_ h1 h2
    exact fun _ _ _ u v => optStrLe_trans v u

instance : IsTotal DetailRow detailOrd where
  total a b := by
    unfold detailOrd
    exact lexLe_total (fun x y => optStrLe_total y.side x.side) a b

instance : IsTrans FaqRow faqOrd where
  trans a b c h1 h2 := by
    unfold faqOrd at h1 h2 ⊢
    refine lexLe_trans ?_ h1 h2
    exact fun _ _ _ u v => strLe_trans u v

instance : IsTotal FaqRow faqOrd where
  total a b := by
    unfold faqOrd
    exact lexLe_total (fun x y => strLe_total x.faqid y.faqid) a b

instance : IsTrans ImageRow imageOrd where
  trans a b c h1 h2 := by
    unfold imageOrd at h1 h2 ⊢
    refine lexLe_trans ?_ h1 h2
    exact fun _ _ _ u v => optStrLe_trans v u

instance : IsTotal ImageRow imageOrd where
  total a b := by
    unfold imageOrd
    exact lexLe_total (fun x y => optStrLe_total y.side x.side) a b

/-- Entry of the `detail` array in an exported card JSON document
(json_object built in the detail CTE of Export.cpp). -/
structure DetailDoc where
  side : Option String
  language : String
  name : String
  cost : Option Int
  specifiedcost : Option String
  power : Option Int
  combopower : Option Int
  traits : Option String
  effect : Option String
deriving DecidableEq

/-- Entry of the `faq` array in an exported card JSON document, carrying
the nested `related` array of card ids or null when the left outer join
found no cardfaqrelated rows. -/
structure FaqDoc where
  faqid : String
  language : String
  question : String
  answer : Option String
  related : Option (List String)
deriving DecidableEq

/-- Entry of the `image` array in an exported card JSON document; the
binary payload appears base64-encoded (or null, produced by base64encode
on an empty blob). -/
structure ImageDoc where
  side : Option String
  language : String
  format : String
  image : Option (List Char)
deriving DecidableEq

/-- One exported card JSON document: the card's scalar fields plus the
three child arrays, each null when the card has no such child rows. -/
structure CardDoc where
  cardid : String
  type : String
  color : String
  rarity : String
  detail : Option (List DetailDoc)
  faq : Option (List FaqDoc)
  image : Option (List ImageDoc)
deriving DecidableEq

/-- Json_group_array over a correlated subquery: an empty row set yields
SQL NULL for the array-valued field, a non-empty one yields the array. -/
def optArr {α} [DecidableEq α] (l : List α) : Option (List α) :=
  if l = [] then none else some l

/-- Detail rows of one card in export order: the detail CTE of the export
query filters on the card id and sorts by (language asc, side desc). -/
def exportDetailRows (db : DatabaseState) (cardid : String) : List DetailRow :=
  List.insertionSort detailOrd
    (db.carddetail.filter (fun d => d.cardid = cardid))

/-- FAQ rows of one card in export order: (language asc, faqid asc). -/
def exportFaqRows (db : DatabaseState) (cardid : String) : List FaqRow :=
  List.insertionSort faqOrd (db.cardfaq.filter (fun f => f.cardid = cardid))

/-- Image rows of one card in export order: (language asc, side desc). -/
def exportImageRows (db : DatabaseState) (cardid : String) : List ImageRow :=
  List.insertionSort imageOrd
    (db.cardimage.filter (fun i => i.cardid = cardid))

/-- Detail JSON object built from a carddetail row. -/
def detailDocOfRow (d : DetailRow) : DetailDoc :=
  ⟨d.side, d.language, d.name, d.cost, d.specifiedcost, d.power,
   d.combopower, d.traits, d.effect⟩

/-- FAQ JSON object built from a cardfaq row: the left outer join with
cardfaqrelated on (cardid, faqid, language), grouped per FAQ key, puts the
matching related card ids in the nested array, or null when none match. -/
def faqDocOfRow (db : DatabaseState) (f : FaqRow) : FaqDoc :=
  { faqid := f.faqid, language := f.language, question := f.question,
    answer := f.answer,
    related := optArr ((db.cardfaqrelated.filter (fun r =>
      f.cardid = r.cardid ∧ some f.faqid = r.faqid ∧
        f.language = r.language)).map (fun r => r.relatedcardid)) }

/-- Image JSON object built from a cardimage row, payload base64-encoded. -/
def imageDocOfRow (i : ImageRow) : ImageDoc :=
  ⟨i.side, i.language, i.format, base64encode (some i.image)⟩

/-- The JSON document export_card (Export.cpp) writes for one card row. -/
def export_card (db : DatabaseState) (c : CardRow) : CardDoc :=
  { cardid := c.cardid, type := c.type, color := c.color, rarity := c.rarity,
    detail := optArr ((exportDetailRows db c.cardid).map detailDocOfRow),
    faq := optArr ((exportFaqRows db c.cardid).map (faqDocOfRow db)),
    image := optArr ((exportImageRows db c.cardid).map imageDocOfRow) }

/-- Database.Export: one JSON file per card row, written to path/card; as
input for a later import each file is a successfully parsed document. -/
def Database.Export (db : DatabaseState) : List (Except String CardDoc) :=
  db.card.map (fun c => .ok (export_card db c))

/-- Card row inserted by the import_card statement from a document's
top-level fields. -/
def import_card_row (doc : CardDoc) : CardRow :=
  ⟨doc.cardid, doc.type, doc.color, doc.rarity⟩

/-- Carddetail rows inserted by import_carddetail for one document:
json_each over the detail array guarded by `where ... is not null`. -/
def import_carddetail_rows (doc : CardDoc) : List DetailRow :=
  match doc.detail with
  | none => []
  | some arr => arr.map (fun e =>
      ⟨doc.cardid, e.side, e.language, e.name, e.cost, e.specifiedcost,
       e.power, e.combopower, e.traits, e.effect⟩)

/-- Cardfaq rows inserted by import_cardfaq for one document. -/
def import_cardfaq_rows (doc : CardDoc) : List FaqRow :=
  match doc.faq with
  | none => []
  | some arr => arr.map (fun e =>
      ⟨doc.cardid, e.faqid, e.language, e.question, e.answer⟩)

/-- Cardfaqrelated rows inserted by import_cardfaqrelated for one document:
nested json_each over each FAQ entry's related array, guarded by
`where ... is not null`. -/
def import_cardfaqrelated_rows (doc : CardDoc) : List FaqRelatedRow :=
  match doc.faq with
  | none => []
  | some faqs => faqs.flatMap (fun f =>
      match f.related with
      | none => []
      | some ids => ids.map (fun rid =>
          ⟨doc.cardid, some f.faqid, f.language, rid⟩))

/-- Cardimage rows inserted by import_cardimage for one document: the
payload is base64decode of the entry's image field; a decode failure is an
engine error, and a NULL payload violates the `image blob not null`
constraint of the cardimage DDL, failing the insert step. -/
def import_cardimage_rows (doc : CardDoc) : Except String (List ImageRow) :=
  match doc.image with
  | none => .ok []
  | some arr => arr.mapM (fun e => do
      let payload ← base64decode e.image
      match payload with
      | some bytes =>
          .ok (⟨doc.cardid, e.side, e.language, e.format, bytes⟩ : ImageRow)
      | none => .error "NOT NULL constraint failed: cardimage.image")

/-- Transaction body of Database.Import: read every file (a parse failure
in the first per-file loop aborts), then run the five per-table insert
loops; the resulting relational state of the freshly created store. -/
def importBody (files : List (Except String CardDoc)) :
    Except String DatabaseState := do
  let docs ← files.mapM id
  let imageRows ← docs.mapM import_cardimage_rows
  .ok { card := docs.map import_card_row,
        carddetail := docs.flatMap import_carddetail_rows,
        cardfaq := docs.flatMap import_cardfaq_rows,
        cardfaqrelated := docs.flatMap import_cardfaqrelated_rows,
        cardimage := imageRows.flatMap id }

/-- Observable outcome of a Database.Import run: the returned value or
propagated error, whether the output database file still exists on disk
afterwards, and the committed card rows of the store at outputFile. -/
structure ImportOutcome where
  result : Except String DatabaseState
  outputFileExists : Bool
  committedCards : List CardRow

/-- Database.Import (Import.cpp): deletes any pre-existing output file,
creates the store (schema initialized, zero committed rows), begins an
immediate transaction and runs the import loops; on success it commits
and vacuums, on any exception it rolls the transaction back (restoring the
empty pre-transaction row set), deletes the output file, and rethrows. -/
def Database.Import (files : List (Except String CardDoc)) : ImportOutcome :=
  match importBody files with
  | .ok db => ⟨.ok db, true, db.card⟩
  | .error e => ⟨.error e, false, []⟩

/-- Round-trip property: importing an export of state db reproduces every
table as a multiset (permutation of rows). -/
def roundTripOk (db : DatabaseState) : Prop :=
  match importBody (Database.Export db) with
  | .ok db2 =>
      db2.card.Perm db.card ∧ db2.carddetail.Perm db.carddetail ∧
      db2.cardfaq.Perm db.cardfaq ∧
      db2.cardfaqrelated.Perm db.cardfaqrelated ∧
      db2.cardimage.Perm db.cardimage
  | .error _ => False

/-- Column of a created table: name, declared type, NOT NULL flag. -/
structure ColumnDef where
  cname : String
  ctype : String
  notNull : Bool
deriving DecidableEq

/-- Check constraint restricting a column to a closed value set (a none
entry means SQL NULL is listed as allowed). -/
structure CheckDef where
  ccolumn : String
  allowed : List (Option String)
deriving DecidableEq

/-- Foreign key clause: referencing columns, referenced table, referenced
columns. -/
structure ForeignKeyDef where
  fkColumns : List String
  refTable : String
  refColumns : List String
deriving DecidableEq

/-- One CREATE TABLE statement of the version-1 DDL, as data. -/
structure TableDef where
  tname : String
  columns : List ColumnDef
  primaryKey : List String
  foreignKeys : List ForeignKeyDef
  checks : List CheckDef
deriving DecidableEq

/-- DDL for table card. -/
def cardTableDef : TableDef :=
  { tname := "card",
    columns := [⟨"cardid", "text", true⟩, ⟨"type", "text", true⟩,
      ⟨"color", "text", true⟩, ⟨"rarity", "text", true⟩],
    primaryKey := ["cardid"],
    foreignKeys := [],
    checks := [⟨"type", [some "LEADER", some "BATTLE", some "EXTRA"]⟩,
      ⟨"color", [some "Red", some "Blue", some "Green", some "Yellow",
        some "Black"]⟩,
      ⟨"rarity", [some "L", some "C", some "R", some "SR", some "SCR",
        some "PR"]⟩] }

/-- DDL for table carddetail. -/
def carddetailTableDef : TableDef :=
  { tname := "carddetail",
    columns := [⟨"cardid", "text", true⟩, ⟨"side", "text", false⟩,
      ⟨"language", "text", true⟩, ⟨"name", "text", true⟩,
      ⟨"cost", "integer", false⟩, ⟨"specifiedcost", "text", false⟩,
      ⟨"power", "integer", false⟩, ⟨"combopower", "integer", false⟩,
      ⟨"traits", "text", false⟩, ⟨"effect", "text", false⟩],
    primaryKey := ["cardid", "side", "language"],
    foreignKeys := [⟨["cardid"], "card", ["cardid"]⟩],
    checks := [⟨"side", [none, some "FRONT", some "BACK"]⟩,
      ⟨"language", [some "EN", some "JP"]⟩] }

/-- DDL for table cardfaq. -/
def cardfaqTableDef : TableDef :=
  { tname := "cardfaq",
    columns := [⟨"cardid", "text", true⟩, ⟨"faqid", "text", true⟩,
      ⟨"language", "text", true⟩, ⟨"question", "text", true⟩,
      ⟨"answer", "text", false⟩],
    primaryKey := ["cardid", "faqid", "language"],
    foreignKeys := [⟨["cardid"], "card", ["cardid"]⟩],
    checks := [⟨"language", [some "EN", some "JP"]⟩] }

/-- DDL for table cardfaqrelated. -/
def cardfaqrelatedTableDef : TableDef :=
  { tname := "cardfaqrelated",
    columns := [⟨"cardid", "text", true⟩, ⟨"faqid", "text", false⟩,
      ⟨"language", "text", true⟩, ⟨"relatedcardid", "text", true⟩],
    primaryKey := ["cardid", "faqid", "language", "relatedcardid"],
    foreignKeys := [⟨["cardid", "faqid", "language"], "cardfaq",
      ["cardid", "faqid", "language"]⟩],
    checks := [⟨"language", [some "EN", some "JP"]⟩] }

/-- DDL for table cardimage. -/
def cardimageTableDef : TableDef :=
  { tname := "cardimage",
    columns := [⟨"cardid", "text", true⟩, ⟨"side", "text", false⟩,
      ⟨"language", "text", true⟩, ⟨"format", "text", true⟩,
      ⟨"image", "blob", true⟩],
    primaryKey := ["cardid", "side", "language"],
    foreignKeys := [⟨["cardid"], "card", ["cardid"]⟩],
    checks := [⟨"side", [none, some "FRONT", some "BACK"]⟩,
      ⟨"language", [some "EN", some "JP"]⟩] }

/-- The five CREATE TABLE statements of the schema version 0 to version 1
migration, in execution order. -/
def schemaV1DDL : List TableDef :=
  [cardTableDef, carddetailTableDef, cardfaqTableDef, cardfaqrelatedTableDef,
   cardimageTableDef]

/-- Persisted schema state: the user_version pragma value and the created
tables. -/
structure SchemaState where
  userVersion : Nat
  tables : List TableDef
deriving DecidableEq

/-- Database.InitializeInstance (Database.cpp): after the per-connection
pragma setup (extended result codes, busy timeout 5000 ms, WAL journal,
UTF-16 encoding, foreign keys ON; none of which is DDL), reads
`pragma user_version`; when it is 0 executes the five version-1 CREATE
TABLE statements and sets user_version to 1, otherwise executes nothing.
Returns the new schema state and the list of DDL statements executed. -/
def InitializeInstance (s : SchemaState) : SchemaState × List TableDef :=
  if s.userVersion = 0 then
    ({ userVersion := 1, tables := s.tables ++ schemaV1DDL }, schemaV1DDL)
  else (s, [])

/-- Result of one sqlite3_step call in the statement script model. -/
inductive StepResult where
  | row (cols : List Int)
  | done
  | err (code : Nat)
deriving DecidableEq

/-- Per-call script for a prepared statement: whether prepare succeeds,
the result of each parameter bind, the successive step results, and the
rows-changed count the engine would report. -/
structure StmtScript where
  prepareOk : Bool
  bindResults : List (Except Nat Unit)
  steps : List StepResult
  changes : Int

/-- Sequential execution of fallible calls, stopping at the first engine
error (models a loop of bind calls, or of per-file import iterations, each
of which throws on its first non-success result code). -/
def runSeq : List (Except Nat Unit) → Except Nat Unit
  | [] => .ok ()
  | .ok _ :: rest => runSeq rest
  | .error c :: _ => .error c

/-- The step loop `do result = step while result == SQLITE_ROW`: consumes
row results, ends at the first done/error; an exhausted script stands for
SQLITE_DONE. -/
def stepToCompletion : List StepResult → Except Nat Unit
  | [] => .ok ()
  | .row _ :: rest => stepToCompletion rest
  | .done :: _ => .ok ()
  | .err c :: _ => .error c

/-- Observable engine-side events of one helper invocation. -/
inductive DbEvent where
  | evPrepare
  | evFinalize
deriving DecidableEq

/-- The execute_non_query helper (Database.cpp): prepare (throwing with no
statement allocated on failure), then inside try: bind each parameter,
step to completion, finalize and return changes; the catch handler
finalizes before rethrowing. -/
def execute_non_query (s : StmtScript) : Except Nat Int × List DbEvent :=
  if s.prepareOk then
    match runSeq s.bindResults with
    | .error c => (.error c, [.evPrepare, .evFinalize])
    | .ok _ =>
      match stepToCompletion s.steps with
      | .error c => (.error c, [.evPrepare, .evFinalize])
      | .ok _ => (.ok s.changes, [.evPrepare, .evFinalize])
  else (.error 1, [])

/-- The execute_scalar_int helper (Database.cpp): like execute_non_query
but performs a single step; a returned row yields column 0 of that row
(sqlite3_column_int of a missing column is 0), SQLITE_DONE yields the
initial value 0, anything else throws; finalized on every path after a
successful prepare. -/
def execute_scalar_int (s : StmtScript) : Except Nat Int × List DbEvent :=
  if s.prepareOk then
    match runSeq s.bindResults with
    | .error c => (.error c, [.evPrepare, .evFinalize])
    | .ok _ =>
      match s.steps with
      | .row cols :: _ => (.ok (cols.getD 0 0), [.evPrepare, .evFinalize])
      | .done :: _ => (.ok 0, [.evPrepare, .evFinalize])
      | .err c :: _ => (.error c, [.evPrepare, .evFinalize])
      | [] => (.ok 0, [.evPrepare, .evFinalize])
  else (.error 1, [])

/-- The execute_scalar_int64 helper (Database.cpp): identical shape to
execute_scalar_int, reading column 0 as a 64-bit integer. -/
def execute_scalar_int64 (s : StmtScript) : Except Nat Int × List DbEvent :=
  if s.prepareOk then
    match runSeq s.bindResults with
    | .error c => (.error c, [.evPrepare, .evFinalize])
    | .ok _ =>
      match s.steps with
      | .row cols :: _ => (.ok (cols.getD 0 0), [.evPrepare, .evFinalize])
      | .done :: _ => (.ok 0, [.evPrepare, .evFinalize])
      | .err c :: _ => (.error c, [.evPrepare, .evFinalize])
      | [] => (.ok 0, [.evPrepare, .evFinalize])
  else (.error 1, [])

/-- The export_card row loop (Export.cpp): prepare (throwing on failure
with no statement allocated), then a try whose finally clause finalizes
the statement whatever the body does; the body's outcome (step loop plus
file writes) is abstracted as one Except value. -/
def export_card_run (prepareOk : Bool) (body : Except Nat Unit) :
    Except Nat Unit × List DbEvent :=
  if prepareOk then (body, [.evPrepare, .evFinalize]) else (.error 1, [])

/-- The import_card per-file loop (Import.cpp, the same shape is shared by
all five per-table loops): prepare once, then iterate the files — bind, step, clear
bindings, reset — aborting at the first failing file; the finally clause
finalizes the statement on every exit path. -/
def import_card_run (prepareOk : Bool) (files : List (Except Nat Unit)) :
    Except Nat Unit × List DbEvent :=
  if prepareOk then (runSeq files, [.evPrepare, .evFinalize])
  else (.error 1, [])

/-- Fifth sqlite3_bind_text16 argument: copy-on-bind or zero-copy. -/
inductive BindMode where
  | transient
  | staticMode
deriving DecidableEq

/-- A single parameter-binding call made against the engine. -/
inductive BindCall where
  | bindText16 (value : String) (mode : BindMode)
  | bindNull
deriving DecidableEq

/-- Mode of a binding call, none for a null bind. -/
def BindCall.bmode : BindCall → Option BindMode
  | .bindText16 _ m => some m
  | .bindNull => none

/-- The bind_parameter helper (Database.cpp): a non-null string is bound
with sqlite3_bind_text16 and SQLITE_TRANSIENT; a null value is bound as a
genuine SQL NULL. -/
def bind_parameter (value : Option String) : BindCall :=
  match value with
  | some s => .bindText16 s .transient
  | none => .bindNull

/-- Bind mode used by the per-file loop of import_card (Import.cpp binds
the pinned JSON text with SQLITE_STATIC). -/
def import_card_bindMode : BindMode := .staticMode

/-- Bind mode used by the per-file loop of import_carddetail. -/
def import_carddetail_bindMode : BindMode := .staticMode

/-- Bind mode used by the per-file loop of import_cardfaq. -/
def import_cardfaq_bindMode : BindMode := .staticMode

/-- Bind mode used by the per-file loop of import_cardfaqrelated. -/
def import_cardfaqrelated_bindMode : BindMode := .staticMode

/-- Bind mode used by the per-file loop of import_cardimage. -/
def import_cardimage_bindMode : BindMode := .staticMode

/-- The claim that every string bind in the library (the execution-helper
bind_parameter and the five per-file import loops) copies on bind. -/
def allLibraryBindsTransient : Prop :=
  (∀ s : String, (bind_parameter (some s)).bmode = some BindMode.transient) ∧
  import_card_bindMode = BindMode.transient ∧
  import_carddetail_bindMode = BindMode.transient ∧
  import_cardfaq_bindMode = BindMode.transient ∧
  import_cardfaqrelated_bindMode = BindMode.transient ∧
  import_cardimage_bindMode = BindMode.transient

/-- Byte representation of System::Guid::Empty (16 zero bytes). -/
def guidEmpty : List Nat := List.replicate 16 0

/-- The column_uuid helper (Database.cpp): a zero-length blob (including a
NULL column, whose value-bytes is 0) converts to Guid::Empty; a blob whose
length differs from sizeof(UUID) = 16 raises an integrity error; otherwise
the 16 bytes form the Guid. -/
def column_uuid (blob : List Nat) : Except String (List Nat) :=
  if blob.length = 0 then .ok guidEmpty
  else if blob.length ≠ 16 then
    .error "Invalid BLOB length for conversion to System::Guid"
  else .ok blob

theorem mapM_id_map_ok {ε α : Type} (l : List α) :
    (l.map (Except.ok : α → Except ε α)).mapM id = .ok l := by
  induction l with
  | nil => rfl
  | cons a t ih => simp only [List.map_cons, List.mapM_cons, ih]; rfl

theorem mapM_map_eq {ε α β γ : Type} (h : α → β) (f : β → Except ε γ)
    (l : List α) : (l.map h).mapM f = l.mapM (fun a => f (h a)) := by
  induction l with
  | nil => rfl
  | cons a t ih => simp only [List.map_cons, List.mapM_cons, ih]

theorem mapM_ok_of_mem {ε α β : Type} (f : α → Except ε β) (g : α → β) :
    ∀ l : List α, (∀ x ∈ l, f x = .ok (g x)) → l.mapM f = .ok (l.map g) := by
  intro l
  induction l with
  | nil => intro _; rfl
  | cons a t ih =>
    intro h
    have ha := h a (by simp)
    have ht := ih (fun x hx => h x (by simp [hx]))
    simp only [List.mapM_cons, ha, ht, List.map_cons]
    rfl

theorem flatMap_perm_congr {α β : Type} {f g : α → List β} :
    ∀ l : List α, (∀ a ∈ l, (f a).Perm (g a)) →
      (l.flatMap f).Perm (l.flatMap g) := by
  intro l
  induction l with
  | nil => intro _; exact List.Perm.refl _
  | cons a t ih =>
    intro h
    simp only [List.flatMap_cons]
    exact (h a (by simp)).append (ih (fun x hx => h x (by simp [hx])))

theorem flatMap_filter_key_perm {α κ : Type} [DecidableEq κ] (key : α → κ) :
    ∀ (keys : List κ) (l : List α), keys.Pairwise (· ≠ ·) →
      (∀ x ∈ l, key x ∈ keys) →
      (keys.flatMap (fun k => l.filter (fun x => key x = k))).Perm l := by
  intro keys
  induction keys with
  | nil =>
    intro l _ hmem
    have hl : l = [] := by
      cases l with
      | nil => rfl
      | cons a t => exact absurd (hmem a (by simp)) (List.not_mem_nil _)
    subst hl
    simp
  | cons k ks ih =>
    intro l hdis hmem
    have hk : ∀ b ∈ ks, k ≠ b := (List.pairwise_cons.mp hdis).1
    have hdis2 : ks.Pairwise (· ≠ ·) := (List.pairwise_cons.mp hdis).2
    simp only [List.flatMap_cons]
    have hstep : ks.flatMap (fun k2 => l.filter (fun x => key x = k2)) =
        ks.flatMap (fun k2 =>
          (l.filter (fun x => ¬ key x = k)).filter (fun x => key x = k2)) := by
      apply List.flatMap_congr
      intro k2 hk2
      rw [List.filter_filter]
      apply List.filter_congr
      intro x _
      by_cases hx : key x = k2
      · have hne : ¬ k2 = k := fun e => hk k2 hk2 e.symm
        simp [hx, hne]
      · simp [hx]
    rw [hstep]
    have hmem2 : ∀ x ∈ l.filter (fun x => ¬ key x = k), key x ∈ ks := by
      intro x hx
      have h1 := List.mem_filter.mp hx
      have h2 : ¬ key x = k := by
        have := h1.2
        simpa using this
      rcases List.mem_cons.mp (hmem x h1.1) with hc | hc
      · exact absurd hc h2
      · exact hc
    have hperm := ih (l.filter (fun x => ¬ key x = k)) hdis2 hmem2
    refine List.Perm.trans (List.Perm.append_left _ hperm) ?_
    have hfilters := List.filter_append_perm (fun x => decide (key x = k)) l
    simpa using hfilters

theorem execute_non_query_trace (s : StmtScript) (h : s.prepareOk = true) :
    (execute_non_query s).2 = [DbEvent.evPrepare, DbEvent.evFinalize] := by
  unfold execute_non_query
  rw [h]
  cases hb : runSeq s.bindResults with
  | error c => simp
  | ok u =>
    cases hs : stepToCompletion s.steps with
    | error c => simp [hb]
    | ok v => simp [hb]

theorem execute_scalar_int_trace (s : StmtScript) (h : s.prepareOk = true) :
    (execute_scalar_int s).2 = [DbEvent.evPrepare, DbEvent.evFinalize] := by
  unfold execute_scalar_int
  rw [h]
  cases hb : runSeq s.bindResults with
  | error c => simp
  | ok u =>
    cases hs : s.steps with
    | nil => simp [hb]
    | cons r rest => cases r <;> simp [hb]

theorem execute_scalar_int64_trace (s : StmtScript) (h : s.prepareOk = true) :
    (execute_scalar_int64 s).2 = [DbEvent.evPrepare, DbEvent.evFinalize] := by
  unfold execute_scalar_int64
  rw [h]
  cases hb : runSeq s.bindResults with
  | error c => simp
  | ok u =>
    cases hs : s.steps with
    | nil => simp [hb]
    | cons r rest => cases r <;> simp [hb]

/-- C7: each execution helper (execute_non_query, execute_scalar_int,
execute_scalar_int64) and each export/import row loop finalizes its
prepared statement exactly once on every exit path — success, bind
failure, step failure, or a failing loop body — whenever preparation
succeeded, so no engine-side statement handle leaks. -/
theorem claimC7_finalizeOnAllPaths (s : StmtScript) (body : Except Nat Unit)
    (files : List (Except Nat Unit)) (pOk : Bool)
    (hs : s.prepareOk = true) (hp : pOk = true) :
    (execute_non_query s).2.count DbEvent.evFinalize = 1 ∧
    (execute_scalar_int s).2.count DbEvent.evFinalize = 1 ∧
    (execute_scalar_int64 s).2.count DbEvent.evFinalize = 1 ∧
    (export_card_run pOk body).2.count DbEvent.evFinalize = 1 ∧
    (import_card_run pOk files).2.count DbEvent.evFinalize = 1 := by
  subst hp
  rw [execute_non_query_trace s hs, execute_scalar_int_trace s hs,
    execute_scalar_int64_trace s hs]
  exact ⟨rfl, rfl, rfl, rfl, rfl⟩

/-- Witness for C7: a concrete statement script whose bind fails and a
concrete failing import file still produce exactly one finalize. -/
theorem claimC7_witness :
    (execute_non_query ⟨true, [Except.error 5], [], 0⟩).2.count
      DbEvent.evFinalize = 1 ∧
    (import_card_run true [Except.error 7]).2.count DbEvent.evFinalize = 1 := by
  have h := claimC7_finalizeOnAllPaths ⟨true, [Except.error 5], [], 0⟩
    (Except.error 3) [Except.error 7] true rfl rfl
  exact ⟨h.1, h.2.2.2.2⟩

/-- C8: when the single step of a scalar helper returns a row, the result
is column 0 of that first row, for both execute_scalar_int and
execute_scalar_int64; when the query returns no rows (the first step
reports SQLITE_DONE) the result is 0. -/
theorem claimC8_scalarFirstRow (s : StmtScript) (cols : List Int)
    (rest : List StepResult) (hprep : s.prepareOk = true)
    (hbind : runSeq s.bindResults = .ok ()) :
    (s.steps = StepResult.row cols :: rest →
      (execute_scalar_int s).1 = .ok (cols.getD 0 0) ∧
      (execute_scalar_int64 s).1 = .ok (cols.getD 0 0)) ∧
    (s.steps = StepResult.done :: rest →
      (execute_scalar_int s).1 = .ok 0 ∧
      (execute_scalar_int64 s).1 = .ok 0) := by
  unfold execute_scalar_int execute_scalar_int64
  rw [hprep, hbind]
  constructor
  · intro hsteps
    rw [hsteps]
    exact ⟨rfl, rfl⟩
  · intro hsteps
    rw [hsteps]
    exact ⟨rfl, rfl⟩

/-- Witness for C8: a query returning one row with column 0 = 7 yields 7,
a query returning no rows yields 0. -/
theorem claimC8_witness :
    (execute_scalar_int ⟨true, [], [StepResult.row [7]], 0⟩).1 = .ok 7 ∧
    (execute_scalar_int64 ⟨true, [], [StepResult.done], 0⟩).1 = .ok 0 := by
  have h1 := claimC8_scalarFirstRow ⟨true, [], [StepResult.row [7]], 0⟩
    [7] [] rfl rfl
  have h2 := claimC8_scalarFirstRow ⟨true, [], [StepResult.done], 0⟩
    [7] [] rfl rfl
  exact ⟨(h1.1 rfl).1, (h2.2 rfl).2⟩

/-- C2: whenever the import transaction body fails (any file or row fails
to parse or insert), Database.Import propagates that same error, the
output database file is deleted, and the rolled-back store holds zero Card
rows. -/
theorem claimC2_importAtomicity (files : List (Except String CardDoc))
    (e : String) (h : (Database.Import files).result = .error e) :
    (Database.Import files).outputFileExists = false ∧
    (Database.Import files).committedCards = [] ∧
    importBody files = .error e := by
  cases hb : importBody files with
  | ok db => simp [Database.Import, hb] at h
  | error e2 =>
    simp [Database.Import, hb] at h ⊢
    exact h ▸ rfl

/-- Witness for C2: a run whose single input file fails to parse deletes
the output file and leaves zero committed Card rows. -/
theorem claimC2_witness :
    (Database.Import [Except.error "bad json"]).outputFileExists = false ∧
    (Database.Import [Except.error "bad json"]).committedCards = [] := by
  have h := claimC2_importAtomicity [Except.error "bad json"] "bad json" rfl
  exact ⟨h.1, h.2.1⟩

/-- C3: initialization is version-gated and idempotent — at version 0 it
executes exactly the five-table version-1 DDL (card, carddetail, cardfaq,
cardfaqrelated, cardimage, with their constraints) and sets the version to
1; at version 1 it executes no DDL and leaves the state unchanged; opening
twice from either version performs zero DDL the second time with the
version remaining 1. -/
theorem claimC3_versionGatedMigration (s : SchemaState) :
    (s.userVersion = 0 →
      (InitializeInstance s).2 = schemaV1DDL ∧
      (InitializeInstance s).2.map TableDef.tname =
        ["card", "carddetail", "cardfaq", "cardfaqrelated", "cardimage"] ∧
      (InitializeInstance s).1.userVersion = 1 ∧
      (InitializeInstance s).1.tables = s.tables ++ schemaV1DDL) ∧
    (s.userVersion = 1 → InitializeInstance s = (s, [])) ∧
    (s.userVersion = 0 ∨ s.userVersion = 1 →
      (InitializeInstance (InitializeInstance s).1).2 = [] ∧
      (InitializeInstance (InitializeInstance s).1).1 =
        (InitializeInstance s).1 ∧
      (InitializeInstance s).1.userVersion = 1) := by
  refine ⟨fun h0 => ?_, fun h1 => ?_, fun h01 => ?_⟩
  · simp [InitializeInstance, h0]
    rfl
  · simp [InitializeInstance, h1]
  · rcases h01 with h | h
    · simp [InitializeInstance, h]
    · simp [InitializeInstance, h]

/-- Witness for C3: starting from a fresh store at version 0, the first
open creates the five tables and the second open performs no DDL. -/
theorem claimC3_witness :
    (InitializeInstance ⟨0, []⟩).2.map TableDef.tname =
      ["card", "carddetail", "cardfaq", "cardfaqrelated", "cardimage"] ∧
    (InitializeInstance (InitializeInstance ⟨0, []⟩).1).2 = [] ∧
    (InitializeInstance ⟨0, []⟩).1.userVersion = 1 := by
  have h := claimC3_versionGatedMigration ⟨0, []⟩
  exact ⟨(h.1 rfl).2.1, (h.2.2 (Or.inl rfl)).1, (h.1 rfl).2.2.1⟩

/-- Counterexample for C6: not every library bind is transient — the
per-file import loops bind the pinned JSON text with SQLITE_STATIC, a
zero-copy reference. -/
theorem claimC6_counterexample : ¬ allLibraryBindsTransient := by
  intro h
  exact absurd h.2.1 (by decide)

/-- C6 (amended): the execution-helper bind_parameter binds every non-null
string with SQLITE_TRANSIENT (and a missing value as a genuine SQL NULL),
but each of the five per-file import loops binds its pinned JSON buffer
with SQLITE_STATIC, a zero-copy reference kept alive by pinning for the
statement's lifetime. -/
theorem claimC6_bindModes :
    (∀ s : String,
      (bind_parameter (some s)).bmode = some BindMode.transient) ∧
    bind_parameter none = BindCall.bindNull ∧
    import_card_bindMode = BindMode.staticMode ∧
    import_carddetail_bindMode = BindMode.staticMode ∧
    import_cardfaq_bindMode = BindMode.staticMode ∧
    import_cardfaqrelated_bindMode = BindMode.staticMode ∧
    import_cardimage_bindMode = BindMode.staticMode :=
  ⟨fun _ => rfl, rfl, rfl, rfl, rfl, rfl, rfl⟩

/-- Counterexample for C9: a zero-length blob has length ≠ 16 yet converts
silently to Guid::Empty instead of raising an integrity error. -/
theorem claimC9_counterexample :
    ([] : List Nat).length ≠ 16 ∧ column_uuid [] = .ok guidEmpty :=
  ⟨by decide, rfl⟩

/-- C9 (amended): every blob whose length is neither 0 nor 16 raises the
integrity error in column_uuid; only the zero-length (or NULL) blob is
mapped to Guid::Empty without error. -/
theorem claimC9_wrongLengthRaises (blob : List Nat)
    (h16 : blob.length ≠ 16) (h0 : blob.length ≠ 0) :
    column_uuid blob =
      .error "Invalid BLOB length for conversion to System::Guid" := by
  unfold column_uuid
  rw [if_neg h0, if_pos h16]

/-- Witness for C9 (amended): a 3-byte blob raises the integrity error. -/
theorem claimC9_witness :
    column_uuid [1, 2, 3] =
      .error "Invalid BLOB length for conversion to System::Guid" :=
  claimC9_wrongLengthRaises [1, 2, 3] (by decide) (by decide)

/-- C10: base64encode returns SQL NULL for a zero-length blob (and for a
NULL argument), base64decode of NULL yields NULL rather than an empty
blob, so the binary round-trip is identity-preserving exactly for
non-empty blobs: an empty blob comes back as NULL, a non-empty blob of
valid bytes comes back byte-identical. -/
theorem claimC10_base64NullBoundary (b : List Nat) (hne : b ≠ [])
    (hb : ∀ x ∈ b, x < 256) :
    base64encode (some ([] : List Nat)) = none ∧
    base64encode none = none ∧
    base64decode none = .ok none ∧
    base64decode (base64encode (some ([] : List Nat))) = .ok none ∧
    base64decode (base64encode (some b)) = .ok (some b) := by
  refine ⟨rfl, rfl, rfl, rfl, ?_⟩
  have hlen : ¬ b.length = 0 := by
    cases b with
    | nil => exact absurd rfl hne
    | cons x t => simp
  simp only [base64encode, if_neg hlen]
  simp only [base64decode, decodeB64_encodeB64 b hb]

/-- Witness for C10: the bytes 0, 255, 10 survive the encode/decode
round-trip while the empty blob maps to NULL. -/
theorem claimC10_witness :
    base64encode (some ([] : List Nat)) = none ∧
    base64decode (base64encode (some [0, 255, 10])) = .ok (some [0, 255, 10]) := by
  have h := claimC10_base64NullBoundary [0, 255, 10] (by decide) (by decide)
  exact ⟨h.1, h.2.2.2.2⟩

/-- Ordering of the exported detail JSON array entries:
(language asc, side desc). -/
def docDetailOrd : DetailDoc → DetailDoc → Prop :=
  lexLe (·.language) (fun a b => optStrLe b.side a.side)

/-- Ordering of the exported faq JSON array entries:
(language asc, faqid asc). -/
def docFaqOrd : FaqDoc → FaqDoc → Prop :=
  lexLe (·.language) (fun a b => strLe a.faqid b.faqid)

/-- Ordering of the exported image JSON array entries:
(language asc, side desc). -/
def docImageOrd : ImageDoc → ImageDoc → Prop :=
  lexLe (·.language) (fun a b => optStrLe b.side a.side)

/-- The underlying entry list of a nullable JSON array (null stands for an
empty row set). -/
def optList {α} (o : Option (List α)) : List α := o.getD []

/-- Card used in the concrete EN/JP × Front/Back ordering check. -/
def sampleCard : CardRow := ⟨"BT1-001", "LEADER", "Red", "L"⟩

/-- Database state with EN/JP × Front/Back child-row combinations stored
in scrambled order, exercising the export ordering and the round-trip. -/
def sampleDb : DatabaseState :=
  { card := [sampleCard],
    carddetail := [
      ⟨"BT1-001", some "BACK", "JP", "name-jb", some 1, none, some 5000,
        none, none, none⟩,
      ⟨"BT1-001", some "FRONT", "EN", "name-ef", some 1, none, some 5000,
        none, none, none⟩,
      ⟨"BT1-001", some "BACK", "EN", "name-eb", none, none, none, none,
        none, none⟩,
      ⟨"BT1-001", some "FRONT", "JP", "name-jf", none, none, none, none,
        none, none⟩],
    cardfaq := [
      ⟨"BT1-001", "Q2", "JP", "q2jp", some "a2"⟩,
      ⟨"BT1-001", "Q1", "EN", "q1en", none⟩,
      ⟨"BT1-001", "Q2", "EN", "q2en", some "a1"⟩],
    cardfaqrelated := [⟨"BT1-001", some "Q2", "EN", "BT1-002"⟩],
    cardimage := [
      ⟨"BT1-001", some "BACK", "EN", "WEBP", [1, 2]⟩,
      ⟨"BT1-001", some "FRONT", "JP", "WEBP", [3]⟩,
      ⟨"BT1-001", some "FRONT", "EN", "WEBP", [4, 5, 6]⟩,
      ⟨"BT1-001", some "BACK", "JP", "WEBP", [7]⟩] }

theorem optList_optArr {α} [DecidableEq α] (l : List α) :
    optList (optArr l) = l := by
  unfold optList optArr
  by_cases h : l = []
  · simp [h]
  · simp [h]

/-- C4: every exported card document's detail array is sorted by
(language asc, side desc), its faq array by (language asc, faqid asc) and
its image array by (language asc, side desc); in particular a card with
EN/JP × Front/Back child-row combinations exports in exactly that order. -/
theorem claimC4_exportOrdering (db : DatabaseState) (c : CardRow) :
    List.Sorted docDetailOrd (optList (export_card db c).detail) ∧
    List.Sorted docFaqOrd (optList (export_card db c).faq) ∧
    List.Sorted docImageOrd (optList (export_card db c).image) ∧
    ((export_card sampleDb sampleCard).detail).map
      (List.map (fun d => (d.language, d.side))) =
      some [("EN", some "FRONT"), ("EN", some "BACK"),
            ("JP", some "FRONT"), ("JP", some "BACK")] ∧
    ((export_card sampleDb sampleCard).faq).map
      (List.map (fun f => (f.language, f.faqid))) =
      some [("EN", "Q1"), ("EN", "Q2"), ("JP", "Q2")] ∧
    ((export_card sampleDb sampleCard).image).map
      (List.map (fun i => (i.language, i.side))) =
      some [("EN", some "FRONT"), ("EN", some "BACK"),
            ("JP", some "FRONT"), ("JP", some "BACK")] := by
  refine ⟨?_, ?_, ?_, by decide, by decide, by decide⟩
  · simp only [export_card]
    rw [optList_optArr]
    exact List.Pairwise.map _ (fun a b h => h)
      (List.sorted_insertionSort detailOrd _)
  · simp only [export_card]
    rw [optList_optArr]
    exact List.Pairwise.map _ (fun a b h => h)
      (List.sorted_insertionSort faqOrd _)
  · simp only [export_card]
    rw [optList_optArr]
    exact List.Pairwise.map _ (fun a b h => h)
      (List.sorted_insertionSort imageOrd _)

theorem exceptOk_bind {ε α β : Type} (a : α) (f : α → Except ε β) :
    (Except.ok a >>= f) = f a := rfl

/-- Relational state produced by importing a single parsed document whose
image loop yielded the given rows. -/
def importedOf (doc : CardDoc) (imgs : List ImageRow) : DatabaseState :=
  { card := [import_card_row doc],
    carddetail := import_carddetail_rows doc,
    cardfaq := import_cardfaq_rows doc,
    cardfaqrelated := import_cardfaqrelated_rows doc,
    cardimage := imgs }

theorem importBody_single (doc : CardDoc) (imgs : List ImageRow)
    (him : import_cardimage_rows doc = .ok imgs) :
    importBody [Except.ok doc] = .ok (importedOf doc imgs) := by
  unfold importBody
  rw [show List.mapM id [Except.ok doc] = Except.ok [doc] from rfl,
    exceptOk_bind]
  rw [show List.mapM import_cardimage_rows [doc] =
    (import_cardimage_rows doc >>= fun x => Except.ok [x]) from rfl]
  rw [him, exceptOk_bind, exceptOk_bind]
  simp [importedOf]

theorem importBody_single_error (doc : CardDoc) (e : String)
    (him : import_cardimage_rows doc = .error e) :
    importBody [Except.ok doc] = .error e := by
  unfold importBody
  rw [show List.mapM id [Except.ok doc] = Except.ok [doc] from rfl,
    exceptOk_bind]
  rw [show List.mapM import_cardimage_rows [doc] =
    (import_cardimage_rows doc >>= fun x => Except.ok [x]) from rfl]
  rw [him]
  rfl

/-- C5: a card document whose detail field is JSON null imports zero
CardDetail rows and re-exports with detail null rather than an empty
array, and symmetrically for the faq and image arrays (a null faq also
yields zero CardFAQRelated rows). -/
theorem claimC5_nullArrayHandling (doc : CardDoc) (db2 : DatabaseState)
    (himp : importBody [Except.ok doc] = .ok db2) :
    (doc.detail = none → db2.carddetail = [] ∧
      (export_card db2 (import_card_row doc)).detail = none) ∧
    (doc.faq = none → db2.cardfaq = [] ∧ db2.cardfaqrelated = [] ∧
      (export_card db2 (import_card_row doc)).faq = none) ∧
    (doc.image = none → db2.cardimage = [] ∧
      (export_card db2 (import_card_row doc)).image = none) := by
  cases him : import_cardimage_rows doc with
  | error e =>
    rw [importBody_single_error doc e him] at himp
    exact absurd himp (by simp)
  | ok imgs =>
    rw [importBody_single doc imgs him] at himp
    have hdb : db2 = importedOf doc imgs := (Except.ok.inj himp).symm
    subst hdb
    refine ⟨fun hd => ⟨?_, ?_⟩, fun hf => ⟨?_, ?_, ?_⟩, fun hi => ⟨?_, ?_⟩⟩
    · simp [importedOf, import_carddetail_rows, hd]
    · simp [export_card, exportDetailRows, importedOf,
        import_carddetail_rows, hd, optArr, List.insertionSort]
    · simp [importedOf, import_cardfaq_rows, hf]
    · simp [importedOf, import_cardfaqrelated_rows, hf]
    · simp [export_card, exportFaqRows, importedOf, import_cardfaq_rows,
        hf, optArr, List.insertionSort]
    · have himgs : imgs = [] := by
        rw [import_cardimage_rows, hi] at him
        exact (Except.ok.inj him).symm
      simp [importedOf, himgs]
    · have himgs : imgs = [] := by
        rw [import_cardimage_rows, hi] at him
        exact (Except.ok.inj him).symm
      simp [export_card, exportImageRows, importedOf, himgs, optArr,
        List.insertionSort]

/-- Document with null detail, faq and image arrays. -/
def cardDocNull : CardDoc := ⟨"BT9-001", "BATTLE", "Blue", "C", none, none, none⟩

/-- Store produced by importing only cardDocNull. -/
def dbNullImport : DatabaseState :=
  ⟨[⟨"BT9-001", "BATTLE", "Blue", "C"⟩], [], [], [], []⟩

/-- Witness for C5: importing the single document with null arrays yields
empty child tables and re-exports all three arrays as null. -/
theorem claimC5_witness :
    dbNullImport.carddetail = [] ∧ dbNullImport.cardfaq = [] ∧
    dbNullImport.cardfaqrelated = [] ∧ dbNullImport.cardimage = [] ∧
    (export_card dbNullImport (import_card_row cardDocNull)).detail = none ∧
    (export_card dbNullImport (import_card_row cardDocNull)).faq = none ∧
    (export_card dbNullImport (import_card_row cardDocNull)).image = none := by
  have h := claimC5_nullArrayHandling cardDocNull dbNullImport (by rfl)
  have h1 := h.1 rfl
  have h2 := h.2.1 rfl
  have h3 := h.2.2 rfl
  exact ⟨h1.1, h2.1, h2.2.1, h3.1, h1.2, h2.2.2, h3.2⟩

/-- Composite key of a cardfaq row referenced by cardfaqrelated. -/
def faqRefKey (f : FaqRow) : String × Option String × String :=
  (f.cardid, some f.faqid, f.language)

/-- Composite foreign-key value of a cardfaqrelated row. -/
def relKey (r : FaqRelatedRow) : String × Option String × String :=
  (r.cardid, r.faqid, r.language)

theorem import_card_row_export (db : DatabaseState) (c : CardRow) :
    import_card_row (export_card db c) = c := rfl

theorem mem_exportDetailRows {db : DatabaseState} {cid : String}
    {d : DetailRow} (h : d ∈ exportDetailRows db cid) :
    d ∈ db.carddetail ∧ d.cardid = cid := by
  unfold exportDetailRows at h
  have h2 := (List.perm_insertionSort detailOrd _).mem_iff.mp h
  have h3 := List.mem_filter.mp h2
  exact ⟨h3.1, by simpa using h3.2⟩

theorem mem_exportFaqRows {db : DatabaseState} {cid : String}
    {f : FaqRow} (h : f ∈ exportFaqRows db cid) :
    f ∈ db.cardfaq ∧ f.cardid = cid := by
  unfold exportFaqRows at h
  have h2 := (List.perm_insertionSort faqOrd _).mem_iff.mp h
  have h3 := List.mem_filter.mp h2
  exact ⟨h3.1, by simpa using h3.2⟩

theorem mem_exportImageRows {db : DatabaseState} {cid : String}
    {i : ImageRow} (h : i ∈ exportImageRows db cid) :
    i ∈ db.cardimage ∧ i.cardid = cid := by
  unfold exportImageRows at h
  have h2 := (List.perm_insertionSort imageOrd _).mem_iff.mp h
  have h3 := List.mem_filter.mp h2
  exact ⟨h3.1, by simpa using h3.2⟩

theorem detail_reconstruct (cid : String) (d : DetailRow)
    (h : d.cardid = cid) :
    (⟨cid, d.side, d.language, d.name, d.cost, d.specifiedcost, d.power,
      d.combopower, d.traits, d.effect⟩ : DetailRow) = d := by
  cases d
  subst h
  rfl

theorem import_carddetail_rows_export (db : DatabaseState) (c : CardRow) :
    import_carddetail_rows (export_card db c) = exportDetailRows db c.cardid := by
  have hdet : (export_card db c).detail =
      optArr ((exportDetailRows db c.cardid).map detailDocOfRow) := rfl
  unfold import_carddetail_rows
  rw [hdet]
  unfold optArr
  by_cases hnil : (exportDetailRows db c.cardid).map detailDocOfRow = []
  · rw [if_pos hnil]
    have h0 : exportDetailRows db c.cardid = [] := by
      cases he : exportDetailRows db c.cardid with
      | nil => rfl
      | cons x xs => rw [he] at hnil; simp at hnil
    rw [h0]
  · rw [if_neg hnil]
    show ((exportDetailRows db c.cardid).map detailDocOfRow).map _ =
      exportDetailRows db c.cardid
    rw [List.map_map]
    have hpt : ∀ d ∈ exportDetailRows db c.cardid,
        (⟨(export_card db c).cardid, (detailDocOfRow d).side,
          (detailDocOfRow d).language, (detailDocOfRow d).name,
          (detailDocOfRow d).cost, (detailDocOfRow d).specifiedcost,
          (detailDocOfRow d).power, (detailDocOfRow d).combopower,
          (detailDocOfRow d).traits, (detailDocOfRow d).effect⟩ :
          DetailRow) = d := by
      intro d hd
      exact detail_reconstruct c.cardid d (mem_exportDetailRows hd).2
    calc (exportDetailRows db c.cardid).map _
        = (exportDetailRows db c.cardid).map id := List.map_congr_left hpt
      _ = exportDetailRows db c.cardid := List.map_id _

theorem faq_reconstruct (cid : String) (f : FaqRow) (h : f.cardid = cid) :
    (⟨cid, f.faqid, f.language, f.question, f.answer⟩ : FaqRow) = f := by
  cases f
  subst h
  rfl

theorem import_cardfaq_rows_export (db : DatabaseState) (c : CardRow) :
    import_cardfaq_rows (export_card db c) = exportFaqRows db c.cardid := by
  have hdoc : (export_card db c).faq =
      optArr ((exportFaqRows db c.cardid).map (faqDocOfRow db)) := rfl
  unfold import_cardfaq_rows
  rw [hdoc]
  unfold optArr
  by_cases hnil : (exportFaqRows db c.cardid).map (faqDocOfRow db) = []
  · rw [if_pos hnil]
    have h0 : exportFaqRows db c.cardid = [] := by
      cases he : exportFaqRows db c.cardid with
      | nil => rfl
      | cons x xs => rw [he] at hnil; simp at hnil
    rw [h0]
  · rw [if_neg hnil]
    show ((exportFaqRows db c.cardid).map (faqDocOfRow db)).map _ =
      exportFaqRows db c.cardid
    rw [List.map_map]
    have hpt : ∀ f ∈ exportFaqRows db c.cardid,
        (⟨(export_card db c).cardid, (faqDocOfRow db f).faqid,
          (faqDocOfRow db f).language, (faqDocOfRow db f).question,
          (faqDocOfRow db f).answer⟩ : FaqRow) = f := by
      intro f hf
      exact faq_reconstruct c.cardid f (mem_exportFaqRows hf).2
    calc (exportFaqRows db c.cardid).map _
        = (exportFaqRows db c.cardid).map id := List.map_congr_left hpt
      _ = exportFaqRows db c.cardid := List.map_id _

theorem image_reconstruct (cid : String) (i : ImageRow)
    (h : i.cardid = cid) :
    (⟨cid, i.side, i.language, i.format, i.image⟩ : ImageRow) = i := by
  cases i
  subst h
  rfl

theorem import_cardimage_rows_export (db : DatabaseState) (c : CardRow)
    (himg : ∀ i ∈ db.cardimage, i.image ≠ [] ∧ ∀ x ∈ i.image, x < 256) :
    import_cardimage_rows (export_card db c) =
      .ok (exportImageRows db c.cardid) := by
  have hdoc : (export_card db c).image =
      optArr ((exportImageRows db c.cardid).map imageDocOfRow) := rfl
  unfold import_cardimage_rows
  rw [hdoc]
  unfold optArr
  by_cases hnil : (exportImageRows db c.cardid).map imageDocOfRow = []
  · rw [if_pos hnil]
    have h0 : exportImageRows db c.cardid = [] := by
      cases he : exportImageRows db c.cardid with
      | nil => rfl
      | cons x xs => rw [he] at hnil; simp at hnil
    rw [h0]
  · rw [if_neg hnil]
    show List.mapM _ ((exportImageRows db c.cardid).map imageDocOfRow) =
      Except.ok (exportImageRows db c.cardid)
    rw [mapM_map_eq]
    have hpt : ∀ i ∈ exportImageRows db c.cardid,
        (do let payload ← base64decode (imageDocOfRow i).image
            match payload with
            | some bytes =>
                Except.ok (⟨(export_card db c).cardid, (imageDocOfRow i).side,
                  (imageDocOfRow i).language, (imageDocOfRow i).format,
                  bytes⟩ : ImageRow)
            | none =>
                Except.error "NOT NULL constraint failed: cardimage.image") =
          Except.ok i := by
      intro i hi
      obtain ⟨hmem, hcid⟩ := mem_exportImageRows hi
      obtain ⟨hne, hb⟩ := himg i hmem
      have hlen : ¬ i.image.length = 0 := fun hcon =>
        hne (List.length_eq_zero.mp hcon)
      have h1 : (imageDocOfRow i).image = some (encodeB64 i.image) := by
        show base64encode (some i.image) = some (encodeB64 i.image)
        simp [base64encode, hlen]
      rw [h1]
      rw [show base64decode (some (encodeB64 i.image)) =
        Except.ok (some i.image) from by
          simp [base64decode, decodeB64_encodeB64 i.image hb]]
      rw [exceptOk_bind]
      exact congrArg Except.ok (image_reconstruct c.cardid i hcid)
    have := mapM_ok_of_mem _ (fun i => i) (exportImageRows db c.cardid)
      (fun i hi => hpt i hi)
    rw [this]
    rw [List.map_id']

theorem faqrel_reconstruct (r : FaqRelatedRow) (x : String)
    (y : Option String) (z : String) (h1 : r.cardid = x) (h2 : r.faqid = y)
    (h3 : r.language = z) :
    (⟨x, y, z, r.relatedcardid⟩ : FaqRelatedRow) = r := by
  cases r
  subst h1
  subst h2
  subst h3
  rfl

theorem import_cardfaqrelated_rows_export (db : DatabaseState)
    (c : CardRow) :
    import_cardfaqrelated_rows (export_card db c) =
      (exportFaqRows db c.cardid).flatMap (fun f =>
        db.cardfaqrelated.filter (fun r => f.cardid = r.cardid ∧
          some f.faqid = r.faqid ∧ f.language = r.language)) := by
  have hdoc : (export_card db c).faq =
      optArr ((exportFaqRows db c.cardid).map (faqDocOfRow db)) := rfl
  unfold import_cardfaqrelated_rows
  rw [hdoc]
  unfold optArr
  by_cases hnil : (exportFaqRows db c.cardid).map (faqDocOfRow db) = []
  · rw [if_pos hnil]
    have h0 : exportFaqRows db c.cardid = [] := by
      cases he : exportFaqRows db c.cardid with
      | nil => rfl
      | cons x xs => rw [he] at hnil; simp at hnil
    rw [h0]
    rfl
  · rw [if_neg hnil]
    show ((exportFaqRows db c.cardid).map (faqDocOfRow db)).flatMap _ =
      (exportFaqRows db c.cardid).flatMap _
    rw [List.flatMap_map]
    apply List.flatMap_congr
    intro f hf
    have hcid := (mem_exportFaqRows hf).2
    have hrel : (faqDocOfRow db f).related =
        optArr ((db.cardfaqrelated.filter (fun r => f.cardid = r.cardid ∧
          some f.faqid = r.faqid ∧ f.language = r.language)).map
          (fun r => r.relatedcardid)) := rfl
    show (match (faqDocOfRow db f).related with
      | none => []
      | some ids => ids.map _) = _
    rw [hrel]
    unfold optArr
    by_cases hnil2 : ((db.cardfaqrelated.filter (fun r =>
        f.cardid = r.cardid ∧ some f.faqid = r.faqid ∧
        f.language = r.language)).map (fun r => r.relatedcardid)) = []
    · rw [if_pos hnil2]
      have h0 : db.cardfaqrelated.filter (fun r => f.cardid = r.cardid ∧
          some f.faqid = r.faqid ∧ f.language = r.language) = [] := by
        cases he : db.cardfaqrelated.filter (fun r => f.cardid = r.cardid ∧
          some f.faqid = r.faqid ∧ f.language = r.language) with
        | nil => rfl
        | cons x xs => rw [he] at hnil2; simp at hnil2
      rw [h0]
    · rw [if_neg hnil2]
      show ((db.cardfaqrelated.filter (fun r => f.cardid = r.cardid ∧
          some f.faqid = r.faqid ∧ f.language = r.language)).map
          (fun r => r.relatedcardid)).map _ =
        db.cardfaqrelated.filter (fun r => f.cardid = r.cardid ∧
          some f.faqid = r.faqid ∧ f.language = r.language)
      rw [List.map_map]
      have hpt : ∀ r ∈ db.cardfaqrelated.filter (fun r =>
          f.cardid = r.cardid ∧ some f.faqid = r.faqid ∧
          f.language = r.language),
          (⟨(export_card db c).cardid, some (faqDocOfRow db f).faqid,
            (faqDocOfRow db f).language, r.relatedcardid⟩ :
            FaqRelatedRow) = r := by
        intro r hr
        have hcond := List.mem_filter.mp hr
        have hc2 : f.cardid = r.cardid ∧ some f.faqid = r.faqid ∧
            f.language = r.language := by simpa using hcond.2
        exact faqrel_reconstruct r c.cardid (some f.faqid) f.language
          (hc2.1.symm.trans hcid) hc2.2.1.symm hc2.2.2.symm
      calc (db.cardfaqrelated.filter (fun r => f.cardid = r.cardid ∧
            some f.faqid = r.faqid ∧ f.language = r.language)).map _
          = (db.cardfaqrelated.filter (fun r => f.cardid = r.cardid ∧
            some f.faqid = r.faqid ∧ f.language = r.language)).map id :=
            List.map_congr_left hpt
        _ = db.cardfaqrelated.filter (fun r => f.cardid = r.cardid ∧
            some f.faqid = r.faqid ∧ f.language = r.language) :=
            List.map_id _

theorem map_ok_comm {ε α β : Type} (g : α → β) (l : List α) :
    l.map (fun a => (Except.ok (g a) : Except ε β)) =
      (l.map g).map Except.ok := by
  rw [List.map_map]
  rfl

theorem cond_filter_eq_key (f : FaqRow) (l : List FaqRelatedRow) :
    l.filter (fun r => f.cardid = r.cardid ∧ some f.faqid = r.faqid ∧
      f.language = r.language) =
    l.filter (fun r => relKey r = faqRefKey f) := by
  apply List.filter_congr
  intro r _
  apply decide_eq_decide.mpr
  unfold relKey faqRefKey
  constructor
  · rintro ⟨h1, h2, h3⟩
    simp only [Prod.mk.injEq]
    exact ⟨h1.symm, h2.symm, h3.symm⟩
  · intro h
    simp only [Prod.mk.injEq] at h
    exact ⟨h.1.symm, h.2.1.symm, h.2.2.symm⟩

theorem importBody_export (db : DatabaseState)
    (himg : ∀ i ∈ db.cardimage, i.image ≠ [] ∧ ∀ x ∈ i.image, x < 256) :
    importBody (Database.Export db) = .ok
      { card := db.card,
        carddetail := db.card.flatMap (fun c => exportDetailRows db c.cardid),
        cardfaq := db.card.flatMap (fun c => exportFaqRows db c.cardid),
        cardfaqrelated := db.card.flatMap (fun c =>
          (exportFaqRows db c.cardid).flatMap (fun f =>
            db.cardfaqrelated.filter (fun r => f.cardid = r.cardid ∧
              some f.faqid = r.faqid ∧ f.language = r.language))),
        cardimage := db.card.flatMap (fun c => exportImageRows db c.cardid) }
    := by
  unfold importBody Database.Export
  rw [map_ok_comm (fun c => export_card db c) db.card]
  rw [mapM_id_map_ok]
  rw [exceptOk_bind]
  rw [mapM_map_eq]
  rw [mapM_ok_of_mem _ (fun c => exportImageRows db c.cardid) db.card
    (fun c _ => import_cardimage_rows_export db c himg)]
  rw [exceptOk_bind]
  refine congrArg Except.ok ?_
  simp only [DatabaseState.mk.injEq]
  refine ⟨?_, ?_, ?_, ?_, ?_⟩
  · calc (db.card.map (fun c => export_card db c)).map import_card_row
        = db.card.map (fun c => import_card_row (export_card db c)) :=
          List.map_map _ _ _
      _ = db.card.map id :=
          List.map_congr_left (fun c _ => import_card_row_export db c)
      _ = db.card := List.map_id _
  · rw [List.flatMap_map]
    exact List.flatMap_congr (fun c _ => import_carddetail_rows_export db c)
  · rw [List.flatMap_map]
    exact List.flatMap_congr (fun c _ => import_cardfaq_rows_export db c)
  · rw [List.flatMap_map]
    exact List.flatMap_congr
      (fun c _ => import_cardfaqrelated_rows_export db c)
  · rw [List.flatMap_map]
    rfl

/-- C1 (amended): for every database state with a non-empty card set that
satisfies the schema's integrity conditions — distinct card ids (primary
key), child rows referencing existing cards (enforced foreign keys),
distinct cardfaq keys (primary key), every cardfaqrelated row matching an
existing cardfaq row on (cardid, faqid, language) with a non-null faqid,
and every image blob non-empty with byte values — importing the export of
the state reproduces every table as a multiset. -/
theorem claimC1_roundTrip (db : DatabaseState)
    (_hne : db.card ≠ [])
    (hpk : db.card.Pairwise (fun a b => a.cardid ≠ b.cardid))
    (hfkDetail : ∀ d ∈ db.carddetail,
      d.cardid ∈ db.card.map (fun c => c.cardid))
    (hfkFaq : ∀ f ∈ db.cardfaq, f.cardid ∈ db.card.map (fun c => c.cardid))
    (hfaqPk : db.cardfaq.Pairwise (fun a b => faqRefKey a ≠ faqRefKey b))
    (hfkRel : ∀ r ∈ db.cardfaqrelated, relKey r ∈ db.cardfaq.map faqRefKey)
    (himg : ∀ i ∈ db.cardimage, i.image ≠ [] ∧ ∀ x ∈ i.image, x < 256)
    (hfkImg : ∀ i ∈ db.cardimage,
      i.cardid ∈ db.card.map (fun c => c.cardid)) :
    roundTripOk db := by
  have hdetail : (db.card.flatMap (fun c => exportDetailRows db c.cardid)).Perm
      db.carddetail := by
    refine List.Perm.trans (flatMap_perm_congr db.card
      (fun c _ => List.perm_insertionSort detailOrd _)) ?_
    have e : db.card.flatMap (fun c =>
        db.carddetail.filter (fun d => d.cardid = c.cardid)) =
      (db.card.map (fun c => c.cardid)).flatMap (fun k =>
        db.carddetail.filter (fun d => d.cardid = k)) := by
      rw [List.flatMap_map]
    rw [e]
    exact flatMap_filter_key_perm (fun d => d.cardid)
      (db.card.map (fun c => c.cardid)) db.carddetail
      (List.pairwise_map.mpr hpk) hfkDetail
  have hfaq : (db.card.flatMap (fun c => exportFaqRows db c.cardid)).Perm
      db.cardfaq := by
    refine List.Perm.trans (flatMap_perm_congr db.card
      (fun c _ => List.perm_insertionSort faqOrd _)) ?_
    have e : db.card.flatMap (fun c =>
        db.cardfaq.filter (fun f => f.cardid = c.cardid)) =
      (db.card.map (fun c => c.cardid)).flatMap (fun k =>
        db.cardfaq.filter (fun f => f.cardid = k)) := by
      rw [List.flatMap_map]
    rw [e]
    exact flatMap_filter_key_perm (fun f => f.cardid)
      (db.card.map (fun c => c.cardid)) db.cardfaq
      (List.pairwise_map.mpr hpk) hfkFaq
  have himage : (db.card.flatMap (fun c => exportImageRows db c.cardid)).Perm
      db.cardimage := by
    refine List.Perm.trans (flatMap_perm_congr db.card
      (fun c _ => List.perm_insertionSort imageOrd _)) ?_
    have e : db.card.flatMap (fun c =>
        db.cardimage.filter (fun i => i.cardid = c.cardid)) =
      (db.card.map (fun c => c.cardid)).flatMap (fun k =>
        db.cardimage.filter (fun i => i.cardid = k)) := by
      rw [List.flatMap_map]
    rw [e]
    exact flatMap_filter_key_perm (fun i => i.cardid)
      (db.card.map (fun c => c.cardid)) db.cardimage
      (List.pairwise_map.mpr hpk) hfkImg
  have hrel : (db.card.flatMap (fun c =>
      (exportFaqRows db c.cardid).flatMap (fun f =>
        db.cardfaqrelated.filter (fun r => f.cardid = r.cardid ∧
          some f.faqid = r.faqid ∧ f.language = r.language)))).Perm
      db.cardfaqrelated := by
    have e2 : db.card.flatMap (fun c =>
        (exportFaqRows db c.cardid).flatMap (fun f =>
          db.cardfaqrelated.filter (fun r => f.cardid = r.cardid ∧
            some f.faqid = r.faqid ∧ f.language = r.language))) =
      (db.card.flatMap (fun c => exportFaqRows db c.cardid)).flatMap (fun f =>
        db.cardfaqrelated.filter (fun r => f.cardid = r.cardid ∧
          some f.faqid = r.faqid ∧ f.language = r.language)) := by
      rw [List.flatMap_assoc]
    rw [e2]
    refine List.Perm.trans (List.Perm.flatMap_right _ hfaq) ?_
    have e3 : db.cardfaq.flatMap (fun f =>
        db.cardfaqrelated.filter (fun r => f.cardid = r.cardid ∧
          some f.faqid = r.faqid ∧ f.language = r.language)) =
      db.cardfaq.flatMap (fun f =>
        db.cardfaqrelated.filter (fun r => relKey r = faqRefKey f)) :=
      List.flatMap_congr (fun f _ => cond_filter_eq_key f db.cardfaqrelated)
    rw [e3]
    have e4 : db.cardfaq.flatMap (fun f =>
        db.cardfaqrelated.filter (fun r => relKey r = faqRefKey f)) =
      (db.cardfaq.map faqRefKey).flatMap (fun k =>
        db.cardfaqrelated.filter (fun r => relKey r = k)) := by
      rw [List.flatMap_map]
    rw [e4]
    exact flatMap_filter_key_perm relKey (db.cardfaq.map faqRefKey)
      db.cardfaqrelated (List.pairwise_map.mpr hfaqPk) hfkRel
  unfold roundTripOk
  rw [importBody_export db himg]
  exact ⟨List.Perm.refl _, hdetail, hfaq, hrel, himage⟩

/-- State with one card owning a single image row with an empty blob: a
legal version-1 state (an empty blob satisfies `image blob not null`). -/
def dbEmptyBlob : DatabaseState :=
  { card := [⟨"BT1-900", "LEADER", "Red", "L"⟩],
    carddetail := [], cardfaq := [], cardfaqrelated := [],
    cardimage := [⟨"BT1-900", some "FRONT", "EN", "WEBP", []⟩] }

/-- Counterexample for C1: a database state with a non-empty card set (one
card, one image child row whose blob is empty) does not round-trip —
base64encode exports the empty blob as JSON null, and the re-import then
violates the cardimage NOT NULL constraint, so the whole import fails. -/
theorem claimC1_counterexample :
    dbEmptyBlob.card ≠ [] ∧ ¬ roundTripOk dbEmptyBlob := by
  constructor
  · intro h
    simp [dbEmptyBlob] at h
  · intro h
    have e : importBody (Database.Export dbEmptyBlob) =
        Except.error "NOT NULL constraint failed: cardimage.image" := rfl
    unfold roundTripOk at h
    rw [e] at h
    exact h

/-- Witness for C1 (amended): the EN/JP × Front/Back sample state with
non-empty image blobs round-trips exactly. -/
theorem claimC1_witness : roundTripOk sampleDb :=
  claimC1_roundTrip sampleDb (by decide) (by decide) (by decide) (by decide)
    (by decide) (by decide) (by decide) (by decide)
